import Mathlib

/-!
Shallow embedding of `gptqmodel/looper/loop_processor.py` (the `LoopProcessor`
base class) and proofs about its result store, constructor-time calibration
dataset validation, finalize semantics, structured logging, and memory
telemetry.
-/

namespace LoopProcessor

/-- Python runtime faults raised by `LoopProcessor` methods. -/
inductive PyErr where
  | valueErrorEmpty : PyErr
  | valueErrorDim (n : Nat) : PyErr
  | importErrorClearml : PyErr
  | zeroDivisionError : PyErr
  | indexError : PyErr
  | attributeError (attr : String) : PyErr
  | assertionError (msg : String) : PyErr
deriving DecidableEq, Repr

/-- Lookup in a Python-style dict modelled as an association list
(keys unique; first binding wins). -/
def dictGet {β : Type} (d : List (String × β)) (k : String) : Option β :=
  match d with
  | [] => none
  | (k₀, v) :: rest => if k₀ = k then some v else dictGet rest k

/-- Python dict assignment `d[k] = v`: replaces the binding of `k` when
present, otherwise appends a new binding. -/
def dictInsert {β : Type} (d : List (String × β)) (k : String) (v : β) :
    List (String × β) :=
  match d with
  | [] => [(k, v)]
  | (k₀, v₀) :: rest =>
      if k₀ = k then (k, v) :: rest else (k₀, v₀) :: dictInsert rest k v

/-!
Result store.  In the source, `self._results` is a `Dict[str, Any]`; a stored
Python value may itself be `None`, so values are modelled as `Option α` with
`none` standing for Python's `None`.

```python
def result_save(self, key: str, value: Any):
    assert self.result_get(key) is None, f"key: {key} already exists in `self.result`"
    self._results[key] = value

def result_get(self, key: str, default: Any = None) -> Any:
    return self._results.get(key, default)
```
-/

/-- `result_get(key, default)`: total lookup, returns `default` when the key
is absent.  `default` is passed explicitly (Python defaults it to `None`,
i.e. `none`). -/
def result_get {α : Type} (results : List (String × Option α)) (key : String)
    (default : Option α) : Option α :=
  match dictGet results key with
  | some v => v
  | none => default

/-- `result_save(key, value)`: asserts `result_get(key) is None` (note: this
tests the *stored value*, not key membership), then writes the binding. -/
def result_save {α : Type} (results : List (String × Option α)) (key : String)
    (value : Option α) : Except PyErr (List (String × Option α)) :=
  match result_get results key none with
  | none => Except.ok (dictInsert results key value)
  | some _ => Except.error (PyErr.assertionError
      ("key: " ++ key ++ " already exists in `self.result`"))

/-!
Constructor (`__init__`), calibration-dataset path.  A prepared batch's
`input_ids` is either a `torch.Tensor` (modelled by its shape) or any other
sequence (modelled by its length, obtained via Python `len`).
-/

/-- The `input_ids` field of one prepared calibration batch. -/
inductive InputIds where
  | tensor (shape : List Nat) : InputIds
  | seq (len : Nat) : InputIds
deriving DecidableEq, Repr

/-- One row (batch) of the prepared calibration dataset. -/
structure CalRow where
  input_ids : InputIds
deriving DecidableEq, Repr

/-- Non-fatal warnings emitted by the constructor. -/
inductive Warning where
  | calibrationSizeTooSmall : Warning
  | avgLengthTooSmall : Warning
deriving DecidableEq, Repr

/-- Whether `input_ids` supports the length/shape query the constructor
performs: a tensor must have a non-empty shape for `shape[-1]` to exist;
any non-tensor sequence supports `len`. -/
def supports_length_query : InputIds → Bool
  | InputIds.tensor shape => decide (shape ≠ [])
  | InputIds.seq _ => true

/-- Whether `input_ids` is a tensor of dimensionality greater than 2 (the
case the constructor rejects). -/
def bad_dim : InputIds → Bool
  | InputIds.tensor shape => decide (2 < shape.length)
  | InputIds.seq _ => false

/-- `input_ids.dim()` for tensors (0 for non-tensors, where it is never
queried by the source). -/
def input_ids_dim : InputIds → Nat
  | InputIds.tensor shape => shape.length
  | InputIds.seq _ => 0

/-- The per-row length computation of the constructor loop:
tensors of dim ≤ 2 yield `shape[-1]` (an `IndexError` on a 0-dim tensor),
tensors of higher dim raise `ValueError` naming the dimensionality, and
non-tensors yield `len(input_ids)`. -/
def input_ids_length : InputIds → Except PyErr Nat
  | InputIds.tensor shape =>
      if shape.length ≤ 2 then
        match shape.getLast? with
        | some n => Except.ok n
        | none => Except.error PyErr.indexError
      else
        Except.error (PyErr.valueErrorDim shape.length)
  | InputIds.seq n => Except.ok n

/-- The constructor's accumulation loop over the prepared dataset, carrying
`total_input_ids_length` and `max_input_id_length`; stops at the first row
whose length computation raises. -/
def scan_input_ids (rows : List CalRow) (total maxLen : Nat) :
    Except PyErr (Nat × Nat) :=
  match rows with
  | [] => Except.ok (total, maxLen)
  | r :: rest =>
      match input_ids_length r.input_ids with
      | Except.error e => Except.error e
      | Except.ok len => scan_input_ids rest (total + len) (max maxLen len)

/-- The observable constructor state the claims are about. -/
structure InitialState where
  warnings : List Warning
  logger_task : Option Unit
  num_batches : Option Nat
deriving DecidableEq, Repr

/-- The dataset-validation portion of `__init__` (entered when
`calibration_dataset is not None`): empty-dataset check, size warning,
length scan over the prepared batches, average-length warning, and the
recording of `num_batches = len(prepared)`.  The average is the exact
rational `total / len(prepared)` (a `ZeroDivisionError` when the preparer
returned no batches). -/
def prepare_and_validate (raw_len : Nat) (prepared : List CalRow)
    (logger_task : Option Unit) : Except PyErr InitialState :=
  if raw_len = 0 then
    Except.error PyErr.valueErrorEmpty
  else
    let warnings₁ := if raw_len < 256 then [Warning.calibrationSizeTooSmall] else []
    match scan_input_ids prepared 0 0 with
    | Except.error e => Except.error e
    | Except.ok (total, _maxLen) =>
        if prepared.length = 0 then
          Except.error PyErr.zeroDivisionError
        else
          let avg : ℚ := (total : ℚ) / (prepared.length : ℚ)
          let warnings₂ := if avg < 256 then [Warning.avgLengthTooSmall] else []
          Except.ok { warnings := warnings₁ ++ warnings₂,
                      logger_task := logger_task,
                      num_batches := some prepared.length }

/-- `LoopProcessor.__init__`: the clearml import gate, logger-task setup, and
— when a calibration dataset is supplied — the validation above applied to
the preparer's output `prepare_dataset_func(dataset, concat_size, batch_size)`.
The raw dataset is opaque (`List Unit`): the source only queries its length. -/
def loopProcessorInit (logger_board : String) (clearml_available : Bool)
    (calibration_dataset : Option (List Unit))
    (prepare_dataset_func : List Unit → Option Nat → Nat → List CalRow)
    (calibration_dataset_concat_size : Option Nat) (batch_size : Nat) :
    Except PyErr InitialState :=
  if logger_board = "clearml" ∧ clearml_available = false then
    Except.error PyErr.importErrorClearml
  else
    let logger_task : Option Unit := if logger_board = "clearml" then some () else none
    match calibration_dataset with
    | none => Except.ok { warnings := [], logger_task := logger_task, num_batches := none }
    | some raw =>
        prepare_and_validate raw.length
          (prepare_dataset_func raw calibration_dataset_concat_size batch_size)
          logger_task

/-- `number_batches()`: reads `self.num_batches`, an attribute that exists
only when a calibration dataset was supplied at construction. -/
def number_batches (s : InitialState) : Except PyErr Nat :=
  match s.num_batches with
  | some n => Except.ok n
  | none => Except.error (PyErr.attributeError "num_batches")

/-!
`finalize` and the attributes it releases.  Deleted attributes are modelled
as `none`; Python `del` on an already-deleted attribute raises
`AttributeError`.

```python
def finalize(self, model: BaseGPTQModel, **kwargs):
    del self.inputs_cache
    del self._results
    if self.log_worker is not None:
        self.log_worker_queue.put(False)
```
-/

/-- The slice of processor state `finalize` touches: the two deletable
attributes, whether the lazy log worker was ever started, and how many
termination sentinels (`False` packets) have been put on the worker queue. -/
structure FinalizeState where
  inputs_cache : Option Unit
  results : Option (List (String × Option Int))
  log_worker : Option Unit
  sentinels : Nat
deriving DecidableEq, Repr

/-- Attribute read of `self.inputs_cache`; fails after deletion. -/
def access_inputs_cache (s : FinalizeState) : Except PyErr Unit :=
  match s.inputs_cache with
  | some c => Except.ok c
  | none => Except.error (PyErr.attributeError "inputs_cache")

/-- Attribute read of `self._results`; fails after deletion. -/
def access_results (s : FinalizeState) : Except PyErr (List (String × Option Int)) :=
  match s.results with
  | some r => Except.ok r
  | none => Except.error (PyErr.attributeError "_results")

/-- `finalize`: deletes `inputs_cache` then `_results` (each `del` raising
`AttributeError` if the attribute is already gone), then — only if the log
worker was started — puts one `False` sentinel on the worker queue. -/
def finalize (s : FinalizeState) : Except PyErr FinalizeState :=
  match s.inputs_cache with
  | none => Except.error (PyErr.attributeError "inputs_cache")
  | some _ =>
      match s.results with
      | none => Except.error (PyErr.attributeError "_results")
      | some _ =>
          let s₁ : FinalizeState :=
            { s with inputs_cache := none, results := none }
          match s.log_worker with
          | some _ => Except.ok { s₁ with sentinels := s₁.sentinels + 1 }
          | none => Except.ok s₁

/-!
Base-contract hooks with no implementation.  In the source both bodies are
`pass`, i.e. the call returns Python `None` without raising; `__init__`
itself relies on this by interpolating `self.name()` into the log file name.
-/

/-- A named module handed to the hooks. -/
structure NamedModule where
  full_name : String
deriving DecidableEq, Repr

/-- `process(module)` on the base class: body is `pass`, so it returns
`None` and never raises. -/
def process (_module : NamedModule) : Except PyErr (Option Unit) :=
  Except.ok none

/-- `name()` on the base class: body is `pass`, so it returns `None` and
never raises. -/
def name : Except PyErr (Option String) :=
  Except.ok none

/-!
Structured logging: `loss_color` and `log_new_row`.  Statistic rows are
mappings from column name to the rendered (`str(...)`) value.
-/

/-- `loss_color(loss_value)`: ANSI color marker by loss magnitude, chained
inclusive upper bounds. -/
def loss_color (loss_value : ℚ) : String :=
  if loss_value ≤ 0.1 then "\x1b[92m"
  else if loss_value ≤ 1 then "\x1b[96m"
  else if loss_value ≤ 5 then "\x1b[93m"
  else if loss_value ≤ 20 then "\x1b[33m"
  else "\x1b[91m"

/-- The logging state `log_new_row` mutates: the row counter and the
per-column maximum display widths. -/
structure LogState where
  log_call_count : Nat
  log_max_widths : List (String × Nat)
deriving DecidableEq, Repr

/-- One `key, value` step of the width-update loop:
`current_width = max(len(str(key)), len(str(value))) + 4`, stored when the
key is new or when the new width exceeds the recorded one. -/
def updateWidth (widths : List (String × Nat)) (key value : String) :
    List (String × Nat) :=
  let current_width := max key.length value.length + 4
  match dictGet widths key with
  | none => dictInsert widths key current_width
  | some w => if current_width > w then dictInsert widths key current_width else widths

/-- The full width-update loop of `log_new_row` over a statistic row. -/
def updateWidths (widths : List (String × Nat)) (stat : List (String × String)) :
    List (String × Nat) :=
  stat.foldl (fun ws kv => updateWidth ws kv.1 kv.2) widths

/-- `log_new_row(stat)`: increments `log_call_count`, updates the column
widths, and prints the bordered header exactly when the incremented counter
satisfies `count % 20 == 1`.  Returns the new state and whether the header
row was printed. -/
def log_new_row (s : LogState) (stat : List (String × String)) :
    LogState × Bool :=
  let count := s.log_call_count + 1
  let widths := updateWidths s.log_max_widths stat
  (⟨count, widths⟩, decide (count % 20 = 1))

/-- A sequence of `log_new_row` calls, returning the final state and, per
call, whether that call printed the header. -/
def runLog (s : LogState) : List (List (String × String)) → LogState × List Bool
  | [] => (s, [])
  | stat :: rest =>
      let step := log_new_row s stat
      let tail := runLog step.1 rest
      (tail.1, step.2 :: tail.2)

/-!
Memory telemetry: `collect_memory_info`.  The sampled GPU/CPU readings come
from external helpers and are passed in as arguments; the layer index is
forwarded to the tracker only.
-/

/-- The telemetry slice of processor state. -/
structure TelemetryState where
  logger_task : Option Unit
  gpu_memorys : List ℚ
  cpu_memorys : List ℚ
deriving DecidableEq, Repr

/-- `collect_memory_info(layer_index)`: does nothing when no tracking task is
configured; otherwise samples once and appends one GPU reading and one CPU
reading to the local series (after reporting both to the tracker). -/
def collect_memory_info (s : TelemetryState) (gpu_memory cpu_memory : ℚ)
    (_layer_index : Nat) : TelemetryState :=
  match s.logger_task with
  | none => s
  | some _ =>
      { s with gpu_memorys := s.gpu_memorys ++ [gpu_memory],
               cpu_memorys := s.cpu_memorys ++ [cpu_memory] }

end LoopProcessor

/-! ## Helper lemmas -/

namespace LoopProcessor

theorem dictGet_dictInsert_self {β : Type} (d : List (String × β)) (k : String) (v : β) :
    dictGet (dictInsert d k v) k = some v := by
  induction d with
  | nil => simp [dictInsert, dictGet]
  | cons hd tl ih =>
      obtain ⟨k₀, v₀⟩ := hd
      by_cases h : k₀ = k
      · simp [dictInsert, dictGet, h]
      · simp [dictInsert, dictGet, h, ih]

theorem dictGet_dictInsert_ne {β : Type} (d : List (String × β)) (k k' : String) (v : β)
    (h : k ≠ k') : dictGet (dictInsert d k v) k' = dictGet d k' := by
  induction d with
  | nil => simp [dictInsert, dictGet, h]
  | cons hd tl ih =>
      obtain ⟨k₀, v₀⟩ := hd
      by_cases h₀ : k₀ = k
      · subst h₀
        simp [dictInsert, dictGet, h]
      · simp [dictInsert, dictGet, h₀, ih]

theorem input_ids_length_ok_of_good (i : InputIds)
    (hq : supports_length_query i = true) (hd : bad_dim i = false) :
    ∃ n, input_ids_length i = Except.ok n := by
  cases i with
  | tensor shape =>
      simp only [supports_length_query, decide_eq_true_eq] at hq
      simp only [bad_dim, decide_eq_false_iff_not, Nat.not_lt] at hd
      obtain ⟨a, ha⟩ : ∃ a, shape.getLast? = some a := by
        cases hl : shape.getLast? with
        | none => exact absurd (List.getLast?_eq_none_iff.mp hl) hq
        | some a => exact ⟨a, rfl⟩
      exact ⟨a, by simp [input_ids_length, hd, ha]⟩
  | seq n => exact ⟨n, rfl⟩

theorem scan_ok_of_good (rows : List CalRow) (t m : Nat)
    (hq : ∀ r ∈ rows, supports_length_query r.input_ids = true)
    (hd : ∀ r ∈ rows, bad_dim r.input_ids = false) :
    ∃ p, scan_input_ids rows t m = Except.ok p := by
  induction rows generalizing t m with
  | nil => exact ⟨(t, m), rfl⟩
  | cons r rest ih =>
      obtain ⟨n, hn⟩ := input_ids_length_ok_of_good r.input_ids
        (hq r (List.mem_cons_self r rest)) (hd r (List.mem_cons_self r rest))
      obtain ⟨p, hp⟩ := ih (t + n) (max m n)
        (fun r' h => hq r' (List.mem_cons_of_mem r h))
        (fun r' h => hd r' (List.mem_cons_of_mem r h))
      exact ⟨p, by simp [scan_input_ids, hn, hp]⟩

theorem scan_error_of_bad (rows : List CalRow) (t m : Nat)
    (hq : ∀ r ∈ rows, supports_length_query r.input_ids = true)
    (hbad : ∃ r ∈ rows, bad_dim r.input_ids = true) :
    ∃ n, scan_input_ids rows t m = Except.error (PyErr.valueErrorDim n) ∧
      2 < n ∧ ∃ r ∈ rows, input_ids_dim r.input_ids = n := by
  induction rows generalizing t m with
  | nil => simp at hbad
  | cons r rest ih =>
      by_cases hb : bad_dim r.input_ids = true
      · cases hi : r.input_ids with
        | tensor shape =>
            have h2 : 2 < shape.length := by
              rw [hi] at hb
              simpa [bad_dim] using hb
            refine ⟨shape.length, ?_, h2,
              ⟨r, List.mem_cons_self r rest, by simp [hi, input_ids_dim]⟩⟩
            simp [scan_input_ids, hi, input_ids_length, Nat.not_le.mpr h2]
        | seq n =>
            rw [hi] at hb
            simp [bad_dim] at hb
      · have hbf : bad_dim r.input_ids = false := by
          simpa using hb
        obtain ⟨n, hn⟩ := input_ids_length_ok_of_good r.input_ids
          (hq r (List.mem_cons_self r rest)) hbf
        have hbad' : ∃ r' ∈ rest, bad_dim r'.input_ids = true := by
          obtain ⟨r', hr', hb'⟩ := hbad
          rcases List.mem_cons.mp hr' with h | h
          · subst h
            exact absurd hb' hb
          · exact ⟨r', h, hb'⟩
        obtain ⟨n', hs, h2, r', hr', hd'⟩ := ih (t + n) (max m n)
          (fun r'' h => hq r'' (List.mem_cons_of_mem r h)) hbad'
        exact ⟨n', by simp [scan_input_ids, hn, hs], h2,
          ⟨r', List.mem_cons_of_mem r hr', hd'⟩⟩

theorem prepare_and_validate_spec (raw_len : Nat) (prepared : List CalRow)
    (lt : Option Unit)
    (hq : ∀ r ∈ prepared, supports_length_query r.input_ids = true)
    (hne : prepared ≠ []) :
    ((∃ e, prepare_and_validate raw_len prepared lt = Except.error e) ↔
      (raw_len = 0 ∨ ∃ r ∈ prepared, bad_dim r.input_ids = true)) ∧
    (∀ e, prepare_and_validate raw_len prepared lt = Except.error e →
      e = PyErr.valueErrorEmpty ∨
        ∃ n, e = PyErr.valueErrorDim n ∧ 2 < n ∧
          ∃ r ∈ prepared, input_ids_dim r.input_ids = n) ∧
    (raw_len ≠ 0 → (∀ r ∈ prepared, bad_dim r.input_ids = false) →
      ∃ s, prepare_and_validate raw_len prepared lt = Except.ok s ∧
        s.num_batches = some prepared.length ∧
        (raw_len < 256 → Warning.calibrationSizeTooSmall ∈ s.warnings)) := by
  by_cases hz : raw_len = 0
  · have hpv : prepare_and_validate raw_len prepared lt =
        Except.error PyErr.valueErrorEmpty := by
      simp [prepare_and_validate, hz]
    refine ⟨⟨fun _ => Or.inl hz, fun _ => ⟨_, hpv⟩⟩, ?_, ?_⟩
    · intro e he
      rw [hpv] at he
      left
      exact (Except.error.injEq _ _).mp he.symm
    · intro h0
      exact absurd hz h0
  · by_cases hbad : ∃ r ∈ prepared, bad_dim r.input_ids = true
    · obtain ⟨n, hscan, h2, r, hr, hdim⟩ := scan_error_of_bad prepared 0 0 hq hbad
      have hpv : prepare_and_validate raw_len prepared lt =
          Except.error (PyErr.valueErrorDim n) := by
        simp [prepare_and_validate, hz, hscan]
      refine ⟨⟨fun _ => Or.inr hbad, fun _ => ⟨_, hpv⟩⟩, ?_, ?_⟩
      · intro e he
        rw [hpv] at he
        right
        refine ⟨n, (Except.error.injEq _ _).mp he.symm, h2, r, hr, hdim⟩
      · intro _ hgood
        have hbt : bad_dim r.input_ids = true := by
          cases hi : r.input_ids with
          | tensor shape =>
              rw [hi] at hdim
              simp only [input_ids_dim] at hdim
              simp only [bad_dim, decide_eq_true_eq]
              omega
          | seq m =>
              rw [hi] at hdim
              simp only [input_ids_dim] at hdim
              omega
        rw [hgood r hr] at hbt
        exact absurd hbt (by simp)
    · have hgood : ∀ r ∈ prepared, bad_dim r.input_ids = false := by
        intro r hr
        cases hb : bad_dim r.input_ids with
        | false => rfl
        | true => exact absurd ⟨r, hr, hb⟩ hbad
      obtain ⟨⟨total, maxLen⟩, hscan⟩ := scan_ok_of_good prepared 0 0 hq hgood
      have hlen : prepared.length ≠ 0 := by
        simpa [List.length_eq_zero] using hne
      have hok : ∃ s, prepare_and_validate raw_len prepared lt = Except.ok s ∧
          s.num_batches = some prepared.length ∧
          (raw_len < 256 → Warning.calibrationSizeTooSmall ∈ s.warnings) := by
        refine ⟨⟨(if raw_len < 256 then [Warning.calibrationSizeTooSmall] else []) ++
            (if ((total : ℚ) / (prepared.length : ℚ) < 256) then
              [Warning.avgLengthTooSmall] else []),
            lt, some prepared.length⟩, ?_, rfl, ?_⟩
        · simp [prepare_and_validate, hz, hscan, hlen]
        · intro hsmall
          simp [hsmall]
      obtain ⟨s, hs, hnb, hw⟩ := hok
      refine ⟨⟨?_, ?_⟩, ?_, fun _ _ => ⟨s, hs, hnb, hw⟩⟩
      · rintro ⟨e, he⟩
        rw [hs] at he
        exact absurd he (by simp)
      · rintro (h | h)
        · exact absurd h hz
        · exact absurd h hbad
      · intro e he
        rw [hs] at he
        exact absurd he (by simp)

theorem loopProcessorInit_eq_of_ne_clearml (logger_board : String)
    (clearml_available : Bool) (raw : List Unit)
    (prepare_dataset_func : List Unit → Option Nat → Nat → List CalRow)
    (concat_size : Option Nat) (batch_size : Nat)
    (hlb : logger_board ≠ "clearml") :
    loopProcessorInit logger_board clearml_available (some raw)
        prepare_dataset_func concat_size batch_size =
      prepare_and_validate raw.length
        (prepare_dataset_func raw concat_size batch_size) none := by
  simp [loopProcessorInit, hlb]

theorem updateWidth_mono (ws : List (String × Nat)) (key value target : String)
    (w : Nat) (h : dictGet ws target = some w) :
    ∃ w', dictGet (updateWidth ws key value) target = some w' ∧ w ≤ w' := by
  unfold updateWidth
  by_cases ht : key = target
  · subst ht
    cases hg : dictGet ws key with
    | none =>
        rw [hg] at h
        cases h
    | some old =>
        rw [hg] at h
        have hw : old = w := by
          injection h
        subst hw
        by_cases hcw : max key.length value.length + 4 > old
        · simp only [hg, if_pos hcw]
          exact ⟨_, dictGet_dictInsert_self ws key _, le_of_lt hcw⟩
        · simp only [hg, if_neg hcw]
          exact ⟨old, h, le_refl old⟩
  · cases hg : dictGet ws key with
    | none =>
        refine ⟨w, ?_, le_refl w⟩
        simp only [hg]
        rw [dictGet_dictInsert_ne ws key target _ ht]
        exact h
    | some old =>
        by_cases hcw : max key.length value.length + 4 > old
        · refine ⟨w, ?_, le_refl w⟩
          simp only [hg, if_pos hcw]
          rw [dictGet_dictInsert_ne ws key target _ ht]
          exact h
        · refine ⟨w, ?_, le_refl w⟩
          simp only [hg, if_neg hcw]
          exact h

theorem updateWidths_mono (stat : List (String × String)) (ws : List (String × Nat))
    (target : String) (w : Nat) (h : dictGet ws target = some w) :
    ∃ w', dictGet (updateWidths ws stat) target = some w' ∧ w ≤ w' := by
  induction stat generalizing ws w with
  | nil => exact ⟨w, h, le_refl w⟩
  | cons kv rest ih =>
      obtain ⟨w₁, h₁, hle₁⟩ := updateWidth_mono ws kv.1 kv.2 target w h
      obtain ⟨w₂, h₂, hle₂⟩ := ih (updateWidth ws kv.1 kv.2) w₁ h₁
      exact ⟨w₂, by simpa [updateWidths] using h₂, le_trans hle₁ hle₂⟩

theorem runLog_headers (stats : List (List (String × String))) (s : LogState) :
    (runLog s stats).2 = (List.range stats.length).map
      (fun i => decide ((s.log_call_count + i + 1) % 20 = 1)) := by
  induction stats generalizing s with
  | nil => simp [runLog]
  | cons stat rest ih =>
      simp only [runLog, List.length_cons, List.range_succ_eq_map, List.map_cons,
        List.map_map]
      refine congrArg₂ List.cons ?_ ?_
      · simp only [log_new_row, decide_eq_decide]
        try omega
      · rw [ih]
        apply List.map_congr_left
        intro i _
        simp only [Function.comp_apply, decide_eq_decide]
        have hc : (log_new_row s stat).1.log_call_count = s.log_call_count + 1 := rfl
        rw [hc]
        omega

end LoopProcessor

/-! ## Claims -/

open LoopProcessor

/-- Claim C1 (code bug witness): the spec requires `result_save` to fault on
any already-present key, but the guard `result_get(key) is None` passes when
the stored value is Python `None`.  Concretely, with `_results = {"k": None}`,
`result_save("k", 1)` does not fault and silently overwrites the entry;
meanwhile `result_get` on an absent key does return the supplied default
without faulting, and a key stored with a non-`None` value does fault. -/
theorem c1_result_save_none_value_not_caught :
    LoopProcessor.result_save [("k", (none : Option Int))] "k" (some 1) =
      Except.ok [("k", some 1)] ∧
    LoopProcessor.result_get ([("a", some 2)] : List (String × Option Int)) "k"
      (some 7) = some 7 ∧
    LoopProcessor.result_save [("k", (some 2 : Option Int))] "k" (some 1) =
      Except.error (LoopProcessor.PyErr.assertionError
        "key: k already exists in `self.result`") := by
  refine ⟨?_, ?_, ?_⟩ <;> rfl

/-- Claim C6: after `result_save(k, None)` stores `None` under `k`, a second
`result_save(k, v)` does not fault and overwrites the entry — the duplicate
guard tests whether the stored value is `None`, not whether the key is
present, so at-most-once-write fails for `None`-valued keys. -/
theorem c6_none_value_defeats_at_most_once {α : Type}
    (results : List (String × Option α)) (k : String) (v : α)
    (r₁ : List (String × Option α))
    (h : LoopProcessor.result_save results k none = Except.ok r₁) :
    ∃ r₂, LoopProcessor.result_save r₁ k (some v) = Except.ok r₂ ∧
      LoopProcessor.result_get r₂ k none = some v := by
  unfold LoopProcessor.result_save at h
  cases hg : LoopProcessor.result_get results k none with
  | none =>
      rw [hg] at h
      have hr₁ : r₁ = LoopProcessor.dictInsert results k none := by
        exact ((Except.ok.injEq _ _).mp h).symm
      subst hr₁
      have hget : LoopProcessor.result_get
          (LoopProcessor.dictInsert results k none) k none = none := by
        unfold LoopProcessor.result_get
        rw [LoopProcessor.dictGet_dictInsert_self]
      refine ⟨LoopProcessor.dictInsert
        (LoopProcessor.dictInsert results k none) k (some v), ?_, ?_⟩
      · unfold LoopProcessor.result_save
        rw [hget]
      · unfold LoopProcessor.result_get
        rw [LoopProcessor.dictGet_dictInsert_self]
  | some w =>
      rw [hg] at h
      exact absurd h (by simp)

/-- Witness for C6 at a concrete input. -/
theorem c6_none_value_defeats_at_most_once_witness :
    ∃ r₂, LoopProcessor.result_save [("w", (none : Option Int))] "w" (some 3) =
        Except.ok r₂ ∧
      LoopProcessor.result_get r₂ "w" none = some 3 :=
  c6_none_value_defeats_at_most_once [] "w" 3 [("w", none)] rfl

/-- Claim C2: with a non-null calibration dataset and a non-clearml logging
backend — assuming every prepared batch's `input_ids` supports the
length/shape query and the preparer returned at least one batch —
construction raises iff the raw dataset is empty or some batch's
`input_ids` tensor has dimensionality greater than 2; every raised error is
a validation `ValueError`, and a dimensionality fault names the offending
batch's actual dimensionality; a non-empty dataset with fewer than 256
samples and no dimensionality violation only warns (the size warning is
emitted) and construction succeeds. -/
theorem c2_construction_validation
    (logger_board : String) (clearml_available : Bool)
    (raw : List Unit)
    (prep : List Unit → Option Nat → Nat → List CalRow)
    (concat_size : Option Nat) (batch_size : Nat)
    (prepared : List CalRow)
    (hp : prep raw concat_size batch_size = prepared)
    (hlb : logger_board ≠ "clearml")
    (hq : ∀ r ∈ prepared, supports_length_query r.input_ids = true)
    (hne : prepared ≠ []) :
    ((∃ e, loopProcessorInit logger_board clearml_available (some raw) prep
        concat_size batch_size = Except.error e) ↔
      (raw = [] ∨ ∃ r ∈ prepared, bad_dim r.input_ids = true)) ∧
    (∀ e, loopProcessorInit logger_board clearml_available (some raw) prep
        concat_size batch_size = Except.error e →
      e = PyErr.valueErrorEmpty ∨
        ∃ n, e = PyErr.valueErrorDim n ∧ 2 < n ∧
          ∃ r ∈ prepared, input_ids_dim r.input_ids = n) ∧
    (raw ≠ [] → (∀ r ∈ prepared, bad_dim r.input_ids = false) →
      ∃ s, loopProcessorInit logger_board clearml_available (some raw) prep
          concat_size batch_size = Except.ok s ∧
        (raw.length < 256 → Warning.calibrationSizeTooSmall ∈ s.warnings)) := by
  have hinit := loopProcessorInit_eq_of_ne_clearml logger_board clearml_available
    raw prep concat_size batch_size hlb
  rw [hp] at hinit
  have hspec := prepare_and_validate_spec raw.length prepared none hq hne
  rw [hinit]
  refine ⟨?_, hspec.2.1, ?_⟩
  · rw [hspec.1, List.length_eq_zero]
  · intro hraw hgood
    obtain ⟨s, hs, _, hw⟩ := hspec.2.2
      (by simpa [List.length_eq_zero] using hraw) hgood
    exact ⟨s, hs, hw⟩

/-- Witness for C2: a 2-sample dataset prepared into one 2-D batch succeeds
with the size warning emitted. -/
theorem c2_construction_validation_witness :
    ∃ s, loopProcessorInit "" true (some [(), ()])
        (fun _ _ _ => [⟨InputIds.tensor [2, 8]⟩]) none 1 = Except.ok s ∧
      Warning.calibrationSizeTooSmall ∈ s.warnings := by
  obtain ⟨s, hs, hw⟩ := (c2_construction_validation "" true [(), ()]
      (fun _ _ _ => [⟨InputIds.tensor [2, 8]⟩]) none 1 [⟨InputIds.tensor [2, 8]⟩]
      rfl (by decide) (by decide) (by decide)).2.2 (by decide) (by decide)
  exact ⟨s, hs, hw (by decide)⟩

/-- Claim C5: for a non-empty calibration dataset meeting the size and
average-length minimums (and whose prepared batches are all of supported
dimensionality), construction succeeds with no warnings and
`number_batches()` equals the length of the batch sequence returned by the
preparation function. -/
theorem c5_number_batches_from_preparer
    (logger_board : String) (clearml_available : Bool)
    (raw : List Unit)
    (prep : List Unit → Option Nat → Nat → List CalRow)
    (concat_size : Option Nat) (batch_size : Nat)
    (prepared : List CalRow)
    (hp : prep raw concat_size batch_size = prepared)
    (hlb : logger_board ≠ "clearml")
    (hsize : 256 ≤ raw.length)
    (_hq : ∀ r ∈ prepared, supports_length_query r.input_ids = true)
    (_hd : ∀ r ∈ prepared, bad_dim r.input_ids = false)
    (hne : prepared ≠ [])
    (total maxLen : Nat)
    (hscan : scan_input_ids prepared 0 0 = Except.ok (total, maxLen))
    (havg : 256 * prepared.length ≤ total) :
    ∃ s, loopProcessorInit logger_board clearml_available (some raw) prep
        concat_size batch_size = Except.ok s ∧
      s.warnings = [] ∧ number_batches s = Except.ok prepared.length := by
  have hinit := loopProcessorInit_eq_of_ne_clearml logger_board clearml_available
    raw prep concat_size batch_size hlb
  rw [hp] at hinit
  have hz : raw.length ≠ 0 := by omega
  have hlen : prepared.length ≠ 0 := by
    simpa [List.length_eq_zero] using hne
  have hnsmall : ¬ raw.length < 256 := by omega
  have hlenpos : (0 : ℚ) < (prepared.length : ℚ) := by
    have hp0 : 0 < prepared.length := Nat.pos_of_ne_zero hlen
    exact_mod_cast hp0
  have hnavg : ¬ ((total : ℚ) / (prepared.length : ℚ) < 256) := by
    rw [not_lt, le_div_iff₀ hlenpos]
    exact_mod_cast havg
  rw [hinit]
  refine ⟨⟨[], none, some prepared.length⟩, ?_, rfl, rfl⟩
  simp [prepare_and_validate, hz, hscan, hlen, hnsmall, hnavg]

set_option maxRecDepth 4000 in
/-- Witness for C5: a 256-sample dataset prepared into one 2-D batch of
average length 300 succeeds with no warnings and one recorded batch. -/
theorem c5_number_batches_from_preparer_witness :
    ∃ s, loopProcessorInit "" true (some (List.replicate 256 ()))
        (fun _ _ _ => [⟨InputIds.tensor [1, 300]⟩]) none 1 = Except.ok s ∧
      s.warnings = [] ∧ number_batches s = Except.ok 1 := by
  have h := c5_number_batches_from_preparer "" true (List.replicate 256 ())
    (fun _ _ _ => [⟨InputIds.tensor [1, 300]⟩]) none 1 [⟨InputIds.tensor [1, 300]⟩]
    rfl (by decide) (by simp) (by decide) (by decide) (by decide)
    300 300 rfl (by decide)
  simpa using h

/-- Claim C3 counterexample: on a processor whose log worker was never
started (no row was ever logged), `finalize` succeeds but puts zero
termination sentinels on the queue — not "exactly one" — and a second
`finalize` raises an `AttributeError` instead of being idempotent-safe. -/
theorem c3_counterexample :
    finalize ⟨some (), some [], none, 0⟩ =
      Except.ok ⟨none, none, none, 0⟩ ∧
    (⟨none, none, none, 0⟩ : FinalizeState).sentinels = 0 ∧
    finalize ⟨none, none, none, 0⟩ =
      Except.error (PyErr.attributeError "inputs_cache") :=
  ⟨rfl, rfl, rfl⟩

/-- Claim C3 (amended): after a successful `finalize`, the input cache and
the result store are released (subsequent access fails); the queue receives
one termination sentinel exactly when the log worker had been started; and a
second `finalize` invocation raises an attribute fault before reaching the
queue — so the sentinel is never sent twice, but `finalize` is not
idempotent-safe against double release. -/
theorem c3_finalize_release (s s' : FinalizeState)
    (h : finalize s = Except.ok s') :
    access_inputs_cache s' = Except.error (PyErr.attributeError "inputs_cache") ∧
    access_results s' = Except.error (PyErr.attributeError "_results") ∧
    s'.sentinels = s.sentinels + (if s.log_worker.isSome then 1 else 0) ∧
    finalize s' = Except.error (PyErr.attributeError "inputs_cache") := by
  obtain ⟨ic, res, lw, sc⟩ := s
  cases ic with
  | none => exact absurd h (by simp [finalize])
  | some c =>
      cases res with
      | none => exact absurd h (by simp [finalize])
      | some r =>
          cases lw with
          | none =>
              have heq : finalize ⟨some c, some r, none, sc⟩ =
                  Except.ok ⟨none, none, none, sc⟩ := rfl
              rw [heq] at h
              have hs' : s' = ⟨none, none, none, sc⟩ :=
                ((Except.ok.injEq _ _).mp h).symm
              subst hs'
              exact ⟨rfl, rfl, by simp, rfl⟩
          | some wkr =>
              have heq : finalize ⟨some c, some r, some wkr, sc⟩ =
                  Except.ok ⟨none, none, some wkr, sc + 1⟩ := rfl
              rw [heq] at h
              have hs' : s' = ⟨none, none, some wkr, sc + 1⟩ :=
                ((Except.ok.injEq _ _).mp h).symm
              subst hs'
              exact ⟨rfl, rfl, by simp, rfl⟩

/-- Witness for C3 at a concrete input: a started log worker, one successful
finalize. -/
theorem c3_finalize_release_witness :
    access_inputs_cache ⟨none, none, some (), 1⟩ =
      Except.error (PyErr.attributeError "inputs_cache") ∧
    access_results ⟨none, none, some (), 1⟩ =
      Except.error (PyErr.attributeError "_results") ∧
    (⟨none, none, some (), 1⟩ : FinalizeState).sentinels =
      (⟨some (), some [], some (), 0⟩ : FinalizeState).sentinels +
        (if (⟨some (), some [], some (), 0⟩ : FinalizeState).log_worker.isSome
          then 1 else 0) ∧
    finalize ⟨none, none, some (), 1⟩ =
      Except.error (PyErr.attributeError "inputs_cache") :=
  c3_finalize_release ⟨some (), some [], some (), 0⟩ ⟨none, none, some (), 1⟩ rfl

/-- Claim C4 counterexample: the base-class `process` and `name` bodies are
`pass`, so invoking them without an override returns Python `None` silently;
neither raises any "not implemented" style fault. -/
theorem c4_counterexample :
    LoopProcessor.process ⟨"mlp.down_proj"⟩ = Except.ok none ∧
    LoopProcessor.name = Except.ok none ∧
    ¬ (∃ e, LoopProcessor.process ⟨"mlp.down_proj"⟩ = Except.error e) ∧
    ¬ (∃ e, LoopProcessor.name = Except.error e) := by
  refine ⟨rfl, rfl, ?_, ?_⟩ <;>
    · rintro ⟨e, he⟩
      exact absurd he (by simp [LoopProcessor.process, LoopProcessor.name])

/-- Claim C4 (amended): for every module, the un-overridden base hooks
`process(module)` and `name()` return silently (`None`); they never fail. -/
theorem c4_base_hooks_return_silently (m : NamedModule) :
    LoopProcessor.process m = Except.ok none ∧
    LoopProcessor.name = Except.ok none :=
  ⟨rfl, rfl⟩

/-- Claim C7: the n-th `log_new_row` call (1-indexed) in a run starting from
the freshly constructed logging state prints the bordered header iff
`n % 20 = 1`; in particular, across 21 calls the header appears on calls 1
and 21 only. -/
theorem c7_header_iff_mod20 (stats : List (List (String × String))) (n : Nat)
    (h1 : 1 ≤ n) (h2 : n ≤ stats.length) :
    ((runLog ⟨0, []⟩ stats).2.getD (n - 1) false = true ↔ n % 20 = 1) := by
  rw [runLog_headers]
  have hlt : n - 1 < stats.length := by omega
  rw [List.getD_eq_getElem?_getD, List.getElem?_map, List.getElem?_range hlt]
  simp only [Option.map_some', Option.getD_some, decide_eq_true_eq]
  have he : 0 + (n - 1) + 1 = n := by omega
  rw [he]

/-- Witness for C7: in a 21-call run, the header is printed on call 21 and
not on call 2. -/
theorem c7_header_iff_mod20_witness :
    (runLog ⟨0, []⟩ (List.replicate 21 [])).2.getD 20 false = true ∧
    (runLog ⟨0, []⟩ (List.replicate 21 [])).2.getD 1 false ≠ true := by
  constructor
  · have h := (c7_header_iff_mod20 (List.replicate 21 []) 21
      (by decide) (by simp)).mpr (by decide)
    simpa using h
  · intro hcontra
    have h := (c7_header_iff_mod20 (List.replicate 21 []) 2
      (by decide) (by simp)).mp (by simpa using hcontra)
    exact absurd h (by decide)

/-- Claim C8: `loss_color` returns the green marker iff the loss is ≤ 0.1,
cyan iff in (0.1, 1], yellow iff in (1, 5], orange iff in (5, 20], red iff
above 20; boundary values 0.05, 1, 5, 20 and 100 land in the inclusive
lower band. -/
theorem c8_loss_color_bands (x : ℚ) :
    (loss_color x = "\x1b[92m" ↔ x ≤ 0.1) ∧
    (loss_color x = "\x1b[96m" ↔ 0.1 < x ∧ x ≤ 1) ∧
    (loss_color x = "\x1b[93m" ↔ 1 < x ∧ x ≤ 5) ∧
    (loss_color x = "\x1b[33m" ↔ 5 < x ∧ x ≤ 20) ∧
    (loss_color x = "\x1b[91m" ↔ 20 < x) ∧
    loss_color 0.05 = "\x1b[92m" ∧ loss_color 1 = "\x1b[96m" ∧
    loss_color 5 = "\x1b[93m" ∧ loss_color 20 = "\x1b[33m" ∧
    loss_color 100 = "\x1b[91m" := by
  have e1 : ("\x1b[92m" : String) ≠ "\x1b[96m" := by decide
  have e2 : ("\x1b[92m" : String) ≠ "\x1b[93m" := by decide
  have e3 : ("\x1b[92m" : String) ≠ "\x1b[33m" := by decide
  have e4 : ("\x1b[92m" : String) ≠ "\x1b[91m" := by decide
  have e5 : ("\x1b[96m" : String) ≠ "\x1b[93m" := by decide
  have e6 : ("\x1b[96m" : String) ≠ "\x1b[33m" := by decide
  have e7 : ("\x1b[96m" : String) ≠ "\x1b[91m" := by decide
  have e8 : ("\x1b[93m" : String) ≠ "\x1b[33m" := by decide
  have e9 : ("\x1b[93m" : String) ≠ "\x1b[91m" := by decide
  have e10 : ("\x1b[33m" : String) ≠ "\x1b[91m" := by decide
  refine ⟨?_, ?_, ?_, ?_, ?_, by norm_num [loss_color], by norm_num [loss_color],
    by norm_num [loss_color], by norm_num [loss_color], by norm_num [loss_color]⟩ <;>
    unfold loss_color <;>
    split_ifs with h1 h2 h3 h4 <;>
    simp_all <;>
    first
      | linarith
      | (intro hx; linarith)

/-- Claim C9: the recorded maximum display width of any column key never
shrinks across a `log_new_row` call: a key present before the call is
present after with a width at least as large. -/
theorem c9_column_width_monotone (s : LogState) (stat : List (String × String))
    (key : String) (w : Nat)
    (h : dictGet s.log_max_widths key = some w) :
    ∃ w', dictGet ((log_new_row s stat).1).log_max_widths key = some w' ∧
      w ≤ w' :=
  updateWidths_mono stat s.log_max_widths key w h

/-- Witness for C9 at a concrete input. -/
theorem c9_column_width_monotone_witness :
    ∃ w', dictGet ((log_new_row ⟨5, [("loss", 9)]⟩
        [("loss", "0.25")]).1).log_max_widths "loss" = some w' ∧ 9 ≤ w' :=
  c9_column_width_monotone ⟨5, [("loss", 9)]⟩ [("loss", "0.25")] "loss" 9 rfl

/-- Claim C10: with no tracking task configured, `collect_memory_info`
leaves the processor state unchanged; with a task configured it appends
exactly one GPU reading and one CPU reading, so equal-length memory series
stay equal in length. -/
theorem c10_collect_memory_info (s : TelemetryState) (g c : ℚ) (i : Nat) :
    (s.logger_task = none → collect_memory_info s g c i = s) ∧
    (s.logger_task ≠ none →
      (collect_memory_info s g c i).gpu_memorys = s.gpu_memorys ++ [g] ∧
      (collect_memory_info s g c i).cpu_memorys = s.cpu_memorys ++ [c]) ∧
    (s.gpu_memorys.length = s.cpu_memorys.length →
      (collect_memory_info s g c i).gpu_memorys.length =
        (collect_memory_info s g c i).cpu_memorys.length) := by
  cases ht : s.logger_task with
  | none =>
      refine ⟨fun _ => by simp [collect_memory_info, ht], fun hc => absurd rfl hc,
        fun hl => by simp [collect_memory_info, ht, hl]⟩
  | some t =>
      refine ⟨fun hc => Option.noConfusion hc,
        fun _ => by simp [collect_memory_info, ht],
        fun hl => by simp [collect_memory_info, ht, hl]⟩

/-- Witness for C10 at concrete inputs: no-op without a task, single append
to each series with one. -/
theorem c10_collect_memory_info_witness :
    collect_memory_info ⟨none, [], []⟩ 2 3 0 = ⟨none, [], []⟩ ∧
    (collect_memory_info ⟨some (), [1], [4]⟩ 2 3 1).gpu_memorys = [1, 2] ∧
    (collect_memory_info ⟨some (), [1], [4]⟩ 2 3 1).cpu_memorys = [4, 3] := by
  refine ⟨(c10_collect_memory_info ⟨none, [], []⟩ 2 3 0).1 rfl, ?_, ?_⟩
  · have h := (c10_collect_memory_info ⟨some (), [1], [4]⟩ 2 3 1).2.1 (by simp)
    simpa using h.1
  · have h := (c10_collect_memory_info ⟨some (), [1], [4]⟩ 2 3 1).2.1 (by simp)
    simpa using h.2
